import Mathlib

/-!
Verification development for the chat turn-dispatch layer
(`src/backend/bisheng/chat/handlers.py`).

The Python handlers are shallowly embedded as pure Lean functions.  Mutable
`ChatResponse` objects become immutable `Frame` values captured at each send;
the ordered sequence of `session.send_json` calls of one handler invocation
becomes a `List Frame`; `session.chat_history.add_message` calls become a
`List HistoryEntry`; database inserts of `RecallChunk` become a
`List RecallChunk`; an exception propagating out of a handler becomes a
`raised` field carrying its text.  External collaborators (the built
computation object invoked through `process_graph`, the graph builder,
`eval` on a log line, `json.dumps`, `extract_answer_keys`) are abstracted as
explicit parameters whose outcomes — including raised exceptions, as
`Except` — are inputs of the embedded functions, never hard-coded.

A load-bearing fact of the source: `process_message` line 90 calls
`self.intermediate_logs(client_id, chat_id, user_id, intermediate_steps)`
with four positional arguments, while the method declared at line 245 takes
five (`session, client_id, chat_id, user_id, intermediate_steps`).  The call
therefore raises `TypeError` on every turn whose computation succeeds, and
it sits outside the `try/except` that ends at line 85, so the exception
propagates out of the handler.  The embedding models this: the success
branch of `process_message` stops at line 90.
-/

/-! ## Python-style helpers over association lists (dicts) -/

/-- `d.get(k)` on a Python dict modelled as an association list. -/
def lookupA (k : String) (m : List (String × String)) : Option String :=
  m.lookup k

/-- `k in d` on a Python dict. -/
def hasKey (k : String) (m : List (String × String)) : Bool :=
  (m.lookup k).isSome

/-- `d.pop(k)`'s effect on the dict: the entry for `k` removed. -/
def removeKey (k : String) (m : List (String × String)) : List (String × String) :=
  m.filter (fun kv => !(kv.1 == k))

/-- `for k, v in artifacts.items(): if k in d: d[k] = v` — override the values
of keys already present in `m` by the artifact values. -/
def applyArtifacts (arts : List (String × String)) (m : List (String × String)) :
    List (String × String) :=
  m.map (fun kv =>
    match arts.lookup kv.1 with
    | some v => (kv.1, v)
    | none => kv)

/-- `sub in s` on Python strings: substring containment. -/
def pyContains (s sub : String) : Bool :=
  decide (List.IsInfix sub.data s.data)

/-- Everything after the first occurrence of `c` in the character list, if
any. -/
def afterChar (c : Char) : List Char → Option (List Char)
  | [] => none
  | x :: rest => if x = c then some rest else afterChar c rest

/-- `s.split(c, 1)[1]`: everything after the first occurrence of the
character `c`, or an `IndexError` when `c` is absent (the Python code
indexes `[1]` into the one-element split result). -/
def pySplitOnceRest (s : String) (c : Char) : Except String String :=
  match afterChar c s.data with
  | some l => .ok ⟨l⟩
  | none => .error "IndexError: list index out of range"

/-- Split a character list on every occurrence of `c`, keeping empty
segments, as Python `s.split(c)` does. -/
def splitOnChar (c : Char) : List Char → List (List Char)
  | [] => [[]]
  | x :: rest =>
    let r := splitOnChar c rest
    if x = c then [] :: r
    else
      match r with
      | [] => [[x]]
      | h :: t => (x :: h) :: t

/-- Python `s.split(c)` for a single-character separator, as a list of
strings.  (Structurally recursive so that it evaluates inside the kernel,
unlike `String.splitOn`.) -/
def pySplitChar (s : String) (c : Char) : List String :=
  (splitOnChar c s.data).map (fun l => ⟨l⟩)

/-- Python `str(x)` for `x : Optional[str]`: `str(None) = "None"`. -/
def pyStr : Option String → String
  | none => "None"
  | some s => s

/-- Python `s.lower()`.  (Character-list map so that it evaluates inside
the kernel, unlike `String.toLower`.) -/
def pyLower (s : String) : String :=
  ⟨s.data.map Char.toLower⟩

/-- Python `s.strip()`: leading and trailing whitespace removed.  (Defined by
structural recursion over the character list so that it evaluates inside the
kernel, unlike `String.trim`.) -/
def pyStrip (s : String) : String :=
  ⟨((s.data.dropWhile Char.isWhitespace).reverse.dropWhile Char.isWhitespace).reverse⟩

/-! ## Data model: frames, documents, recall chunks, history entries -/

/-- The `receiver` record of an agent exchange, reduced to the one field the
handler reads (`receiver.get('is_bot')`). -/
structure AgentReceiver where
  is_bot : Option Bool := none
deriving DecidableEq

/-- A streamed `ChatResponse` frame, captured at send time.  Fields the
handler never sets stay `none`. -/
structure Frame where
  type_ : String
  category : Option String := none
  message : Option String := none
  intermediate_steps : Option String := none
  source : Option Bool := none
  user_id : Option Nat := none
  sender : Option String := none
  receiver : Option AgentReceiver := none
  is_bot : Option Bool := none
  message_id : Option Nat := none
deriving DecidableEq

/-- One record of an agent multi-dialog intermediate-steps list. -/
structure AgentRecord where
  message : Option String := none
  sender : Option String := none
  receiver : Option AgentReceiver := none
deriving DecidableEq

/-- The free-form `intermediate_steps` value returned by the computation:
`None`, a string log, or a list of agent exchanges. -/
inductive Steps where
  | noneS : Steps
  | strS (s : String) : Steps
  | listS (msgs : List AgentRecord) : Steps
deriving DecidableEq

/-- Python truthiness test `not intermediate_steps`. -/
def stepsFalsy : Steps → Bool
  | .noneS => true
  | .strS s => s == ""
  | .listS l => l.isEmpty

/-- `intermediate_steps = intermediate_steps or ''` (handlers.py line 88;
executed on the success path just before the failing call at line 90, with
no observable effect there). -/
def stepsOrEmpty (st : Steps) : Steps :=
  if stepsFalsy st then .strS "" else st

/-- A retrieval `Document`: page content plus metadata.  Metadata values are
modelled as strings, with Python truthiness `""` = falsy. -/
structure Document where
  page_content : String
  metadata : List (String × String)
deriving DecidableEq

/-- A persisted `RecallChunk` row. -/
structure RecallChunk where
  chat_id : String
  keywords : String
  chunk : String
  file_id : Option String
  meta_data : String
  message_id : Option Nat
deriving DecidableEq

/-- An append to `session.chat_history`. -/
inductive HistoryEntry where
  | question (inputs : List (String × String)) (isBot : Bool) (userId : Option Nat)
  | fileUpload (fileName : String) (userId : Option Nat)
  | step (f : Frame)
deriving DecidableEq

/-! ## Intermediate-log normalization (`Handler.intermediate_logs`) -/

/-- One line of the string log, as `intermediate_logs` processes it
(handlers.py lines 266-270): when the line contains `source_documents`, the
text after the first `:` is handed to `eval` — `s.split(':', 1)[1]` raises
`IndexError` when the line has no colon, and `eval` itself may raise (for
instance `NameError` on text that is not a valid expression).  The `eval`
call is abstracted by `parseDict`, whose `.error` case is a raised
exception and whose `.ok` case is the resulting dict.  When the dict has a
`result` key the line becomes `Answer: <result>`, otherwise it is kept. -/
def transformLine (parseDict : String → Except String (List (String × String)))
    (line : String) : Except String String :=
  if pyContains line "source_documents" then
    match pySplitOnceRest line ':' with
    | .error e => .error e
    | .ok restText =>
      match parseDict restText with
      | .error e => .error e
      | .ok answer =>
        match lookupA "result" answer with
        | some r => .ok ("Answer: " ++ r)
        | none => .ok line
  else .ok line

/-- The step frames built by the `for s in intermediate_steps.split('\n')`
loop of `intermediate_logs`: one `end` frame per line, aborting with the
exception of the first line whose processing raises (the partially built
local list is then discarded — nothing has been sent or persisted yet). -/
def buildStepFrames (parseDict : String → Except String (List (String × String)))
    (userId : Option Nat) : List String → Except String (List Frame)
  | [] => .ok []
  | line :: rest =>
    match transformLine parseDict line with
    | .error e => .error e
    | .ok t =>
      match buildStepFrames parseDict userId rest with
      | .error e => .error e
      | .ok fs =>
        .ok (({ type_ := "end", intermediate_steps := some t,
                user_id := userId } : Frame) :: fs)

/-- Result of a completed `intermediate_logs` call: the frames sent through
the channel and the step frames persisted to chat history. -/
structure LogsOut where
  sent : List Frame
  persisted : List Frame
deriving DecidableEq

/-- Embedding of `Handler.intermediate_logs` as the method is declared
(handlers.py lines 245-280).  Its only call site, line 90, passes four
arguments for its five parameters and raises `TypeError` before this body
can run, so in the program this body is dead code; it is embedded here as
written.  Note that only `end_resp` is ever passed to `session.send_json`;
the per-entry `steps` frames are only passed to
`chat_history.add_message`.  An exception from a line of the string branch
(`IndexError` or an `eval` failure) propagates before anything is sent or
persisted. -/
def intermediate_logs (parseDict : String → Except String (List (String × String)))
    (chatId : String) (userId : Option Nat) (isteps : Steps) :
    Except String LogsOut :=
  let end_resp : Frame := { type_ := "end", user_id := userId }
  if stepsFalsy isteps then .ok { sent := [end_resp], persisted := [] }
  else
    match isteps with
    | .noneS => .ok { sent := [end_resp], persisted := [] }
    | .listS msgs =>
      let steps := msgs.map (fun m =>
        let isBot : Bool :=
          match m.receiver with
          | some r => if r.is_bot.getD false then false else true
          | none => true
        ({ type_ := "end", message := m.message, sender := m.sender,
           receiver := m.receiver, user_id := userId, is_bot := some isBot } : Frame))
      .ok { sent := [end_resp], persisted := steps }
    | .strS s =>
      if chatId ≠ "" ∧ pyStrip s ≠ "" then
        match buildStepFrames parseDict userId (pySplitChar s '\n') with
        | .error e => .error e
        | .ok steps => .ok { sent := [end_resp], persisted := steps }
      else
        .ok { sent := [{ end_resp with intermediate_steps := some s }], persisted := [] }

/-! ## Traceability decision and recorder -/

/-- `'bbox' not in doc.metadata or not doc.metadata['bbox']`. -/
def bboxMissingOrEmpty (doc : Document) : Bool :=
  match lookupA "bbox" doc.metadata with
  | none => true
  | some v => v == ""

/-- The `source` flag computation written at handlers.py lines 91-96:
`source = True if source_doucment and chat_id else False`, then the loop
over documents clearing it when a bounding box is missing or empty. -/
def decideSource (docs : List Document) (chatId : String) : Bool :=
  let source : Bool := if docs ≠ [] ∧ chatId ≠ "" then true else false
  if source then
    docs.foldl (fun s doc => if bboxMissingOrEmpty doc then false else s) source
  else source

/-- Embedding of `Handler.process_source_document`.  The keyword-model
resolution and `extract_answer_keys` call are external; their serialized
outcome arrives as `answerKeywords`, and `json.dumps` on metadata as
`metaDumps`. -/
def process_source_document (metaDumps : List (String × String) → String)
    (answerKeywords : String) (docs : List Document)
    (chatId : String) (messageId : Option Nat) : List RecallChunk :=
  if docs = [] then []
  else
    docs.filterMap (fun doc =>
      if hasKey "bbox" doc.metadata then
        some { chat_id := chatId, keywords := answerKeywords,
               chunk := doc.page_content,
               file_id := lookupA "file_id" doc.metadata,
               meta_data := metaDumps doc.metadata,
               message_id := messageId }
      else none)

/-! ## Single-Turn Processor (`Handler.process_message`) -/

/-- The `payload` of a `default` action: its `inputs` dict and — since
`payload.get('is_begin', True)` distinguishes a missing key from an explicit
value — whether the `is_begin` key is present and what it holds. -/
structure MessagePayload where
  inputs : List (String × String)
  hasIsBegin : Bool := false
  isBeginVal : Bool := true
deriving DecidableEq

/-- `payload.get('is_begin', True)`. -/
def payloadIsBegin (p : MessagePayload) : Bool :=
  if p.hasIsBegin then p.isBeginVal else true

/-- Outcome of awaiting `process_graph` on the cached computation object:
either `(result, intermediate_steps, source_doucment)` or a raised
exception carrying its `str(e)` text. -/
inductive GraphResult where
  | ok (result : String) (isteps : Steps) (sourceDocs : List Document) : GraphResult
  | err (msg : String) : GraphResult
deriving DecidableEq

/-- Everything one `process_message` invocation reads from its environment:
identifiers, the payload, the cached artifact map, and the behaviour of the
cached computation object. -/
structure TurnInput where
  clientId : String
  chatId : String
  userId : Option Nat := none
  payload : MessagePayload
  artifacts : Option (List (String × String)) := none
  graphOutcome : GraphResult
deriving DecidableEq

/-- The `TypeError` raised at handlers.py line 90:
`await self.intermediate_logs(client_id, chat_id, user_id,
intermediate_steps)` passes four positional arguments to a bound method
whose declaration at line 245 takes five
(`session, client_id, chat_id, user_id, intermediate_steps`), so the call
itself raises before the method body can run. -/
def typeErrorIntermediateLogs : String :=
  "TypeError: intermediate_logs missing 1 required positional argument: intermediate_steps"

/-- Observable effects of one `process_message` invocation: frames sent (in
order), chat-history appends, persisted recall chunks, the Python return
value when the handler returns normally (`None` on the handled-failure
path), and the exception propagating out of the handler, if any. -/
structure TurnOutput where
  frames : List Frame
  history : List HistoryEntry
  recallChunks : List RecallChunk
  result : Option String
  raised : Option String
deriving DecidableEq

/-- Embedding of `Handler.process_message`.  The success branch stops where
the source stops: line 88 computes `intermediate_steps or ''` (no
observable effect), and line 90 then calls `self.intermediate_logs` with
four arguments for its five parameters, raising `TypeError` outside the
try/except.  Lines 91-124 (the source decision, the answer/divider frames,
the final close frame, the recall chunks, `return result`) are unreachable
on every turn whose computation succeeds. -/
def process_message (inp : TurnInput) : TurnOutput :=
  let chat_inputs0 := inp.payload.inputs
  let chat_inputs1 :=
    if hasKey "id" chat_inputs0 then removeKey "id" chat_inputs0 else chat_inputs0
  let is_begin := payloadIsBegin inp.payload
  let chat_inputs2 :=
    match inp.artifacts with
    | none => chat_inputs1
    | some arts => applyArtifacts arts chat_inputs1
  let questionMsg := HistoryEntry.question chat_inputs2 (!is_begin) inp.userId
  let beginFrames : List Frame :=
    if is_begin then [{ type_ := "begin", user_id := inp.userId }] else []
  let history0 : List HistoryEntry := if is_begin then [questionMsg] else []
  let start_resp : Frame := { type_ := "start", user_id := inp.userId }
  let pre := beginFrames ++ [start_resp]
  match inp.graphOutcome with
  | .err e =>
    let end_resp : Frame :=
      { type_ := "end", intermediate_steps := some ("分析出错，" ++ e), user_id := inp.userId }
    let close_resp : Frame := { type_ := "close", user_id := inp.userId }
    let extra : List Frame :=
      if inp.chatId = "" then
        [start_resp,
         { end_resp with message := end_resp.intermediate_steps, intermediate_steps := none }]
      else []
    { frames := pre ++ [end_resp] ++ extra ++ [close_resp],
      history := history0, recallChunks := [], result := none, raised := none }
  | .ok _ _ _ =>
    { frames := pre, history := history0, recallChunks := [], result := none,
      raised := some typeErrorIntermediateLogs }

/-! ## File-Ingestion Driver (`Handler.process_file`) -/

/-- Outcome of `build_flow_no_yield` + `graph.build()` + the input-node
lookup: the build raised, or no `InputNode` exists, or an input node was
found with its generated `questions`, the downstream `input_keys[0]`, and
the target node id. -/
inductive BuildOutcome where
  | failed : BuildOutcome
  | noInputNode : BuildOutcome
  | withInput (questions : List String) (inputKey : String) (targetId : String) : BuildOutcome
deriving DecidableEq

/-- Everything one `process_file` invocation reads from its environment.
`compute` gives, per question, the outcome of invoking the freshly cached
computation object inside the nested `process_message` turn. -/
structure FileEnv where
  clientId : String
  chatId : String
  userId : Option Nat := none
  fileName : String := ""
  build : BuildOutcome
  compute : String → GraphResult := fun _ => .err ""
  turnArtifacts : Option (List (String × String)) := none

/-- The payload `process_file` hands to `process_message` for one question:
`{'inputs': {input_key: question, 'id': edge.target.id}}`.  Note it carries
no `is_begin` key. -/
def fileTurnPayload (inputKey targetId question : String) : MessagePayload :=
  { inputs := [(inputKey, question), ("id", targetId)], hasIsBegin := false }

/-- The full `TurnInput` of the nested `process_message` call for one
question. -/
def fileTurnInput (env : FileEnv) (inputKey targetId question : String) : TurnInput :=
  { clientId := env.clientId, chatId := env.chatId, userId := env.userId,
    payload := fileTurnPayload inputKey targetId question,
    artifacts := env.turnArtifacts,
    graphOutcome := env.compute question }

/-- The report entry appended per question:
`report = f"{report}### {question} \n {result} \n "`. -/
def reportEntry (question answerText : String) : String :=
  "### " ++ question ++ " \n " ++ answerText ++ " \n "

/-- Accumulated effects of the question loop of `process_file`.  `report`
is the local report string at the point the loop finishes; it is discarded
(and never sent) when `raised` is set. -/
structure LoopOut where
  frames : List Frame
  history : List HistoryEntry
  recallChunks : List RecallChunk
  invocations : List MessagePayload
  report : String
  raised : Option String

/-- The `for question in questions` loop of `process_file`.  Empty (falsy)
questions are skipped.  `start_resp.category == 'question'` in the source is
a comparison, not an assignment, so the re-sent start frame keeps its
`system` category.  A nested turn whose computation succeeds raises
`TypeError` at handlers.py line 90; the exception propagates out of the
loop, so later questions are never processed. -/
def questionLoop (env : FileEnv) (inputKey targetId : String) :
    List String → LoopOut
  | [] => { frames := [], history := [], recallChunks := [], invocations := [],
            report := "", raised := none }
  | q :: rest =>
    if q = "" then questionLoop env inputKey targetId rest
    else
      let startQ : Frame := { type_ := "start", category := some "system", user_id := env.userId }
      let stepQ : Frame :=
        { type_ := "end", intermediate_steps := some q, category := some "question",
          user_id := env.userId }
      let sub := process_message (fileTurnInput env inputKey targetId q)
      match sub.raised with
      | some e =>
        { frames := [startQ, stepQ] ++ sub.frames, history := sub.history,
          recallChunks := sub.recallChunks,
          invocations := [fileTurnPayload inputKey targetId q],
          report := "", raised := some e }
      | none =>
        let tail := questionLoop env inputKey targetId rest
        { frames := [startQ, stepQ] ++ sub.frames ++ tail.frames,
          history := sub.history ++ tail.history,
          recallChunks := sub.recallChunks ++ tail.recallChunks,
          invocations := fileTurnPayload inputKey targetId q :: tail.invocations,
          report := reportEntry q (pyStr sub.result) ++ tail.report,
          raised := tail.raised }

/-- Observable effects of one `process_file` invocation.  `invocations`
records each payload handed to `process_message`; `report` is the content
of the report frame when one is emitted; `raised` is the exception
propagating out of the driver, if any. -/
structure FileOutput where
  frames : List Frame
  history : List HistoryEntry
  recallChunks : List RecallChunk
  invocations : List MessagePayload
  report : Option String
  raised : Option String

/-- Embedding of `Handler.process_file`.  The flow lookup and the in-memory
node-template mutation only influence the build, which arrives as
`env.build`; the cache refresh (`session.set_cache`) only influences the
nested turns, which read `env.compute`/`env.turnArtifacts`.  Nothing
catches an exception from the nested `process_message` call, so it aborts
the driver before the report and close frames. -/
def process_file (env : FileEnv) : FileOutput :=
  let fileMsg := HistoryEntry.fileUpload env.fileName env.userId
  let beginF : Frame := { type_ := "begin", category := some "system", user_id := env.userId }
  let startF : Frame := { type_ := "start", category := some "system", user_id := env.userId }
  match env.build with
  | .failed =>
    let stepF : Frame :=
      { type_ := "end", intermediate_steps := some "File is parsed fail",
        category := some "system", user_id := env.userId }
    let closeF : Frame := { type_ := "close", category := some "system", user_id := env.userId }
    { frames := [beginF, startF, stepF] ++ [closeF], history := [fileMsg], recallChunks := [],
      invocations := [], report := none, raised := none }
  | .noInputNode =>
    let stepF : Frame :=
      { type_ := "end", intermediate_steps := some "File parsing complete",
        category := some "system", user_id := env.userId }
    let closeF : Frame := { type_ := "close", category := some "system", user_id := env.userId }
    { frames := [beginF, startF, stepF] ++ [closeF], history := [fileMsg], recallChunks := [],
      invocations := [], report := none, raised := none }
  | .withInput questions inputKey targetId =>
    let stepF : Frame :=
      { type_ := "end",
        intermediate_steps := some "File parsing complete, analysis starting",
        category := some "system", user_id := env.userId }
    let loop := questionLoop env inputKey targetId questions
    match loop.raised with
    | some e =>
      { frames := [beginF, startF, stepF] ++ loop.frames,
        history := fileMsg :: loop.history, recallChunks := loop.recallChunks,
        invocations := loop.invocations, report := none, raised := some e }
    | none =>
      let reportStart : Frame :=
        { type_ := "start", category := some "report", user_id := env.userId }
      let reportEnd : Frame :=
        { type_ := "end", intermediate_steps := some loop.report, category := some "report",
          user_id := env.userId }
      let closeF : Frame := { type_ := "close", category := some "system", user_id := env.userId }
      { frames := [beginF, startF, stepF] ++ loop.frames ++ [reportStart, reportEnd] ++ [closeF],
        history := fileMsg :: loop.history, recallChunks := loop.recallChunks,
        invocations := loop.invocations, report := some loop.report, raised := none }

/-! ## Dispatcher (`Handler.dispatch_task`) -/

/-- Observable events of one dispatch: the scoped session lock acquire and
release (`with session.cache_manager.set_client_id(client_id, chat_id)`) and
handler invocation. -/
inductive DispatchEvent where
  | acquireScope (clientId chatId : String)
  | invokeHandler (handlerName : String)
  | releaseScope (clientId chatId : String)
deriving DecidableEq

/-- `self.handler_dict` as built in `Handler.__init__`: action name to
bound-method name. -/
def handler_dict : List (String × String) :=
  [("default", "process_message"), ("autogen", "process_autogen"),
   ("auto_file", "process_file")]

/-- Embedding of `Handler.dispatch_task`: the ordered event list and the
raised error text, if any.  The unknown-action exception is raised inside
the `with` block, so the scope is still released before it propagates. -/
def dispatch_task (clientId chatId action : String) :
    List DispatchEvent × Option String :=
  match handler_dict.lookup action with
  | some h =>
    ([.acquireScope clientId chatId, .invokeHandler h, .releaseScope clientId chatId], none)
  | none =>
    ([.acquireScope clientId chatId, .releaseScope clientId chatId],
     some ("unknown action " ++ action))

/-! ## Conversation Controller (`Handler.process_autogen`) -/

/-- Capabilities of the cached conversation object, probed with `hasattr`. -/
structure AutogenObject where
  hasStop : Bool
  hasInput : Bool
deriving DecidableEq

/-- Observable interactions of `process_autogen` besides sent frames. -/
inductive AutogenEvent where
  | stopCalled
  | inputCalled (inputs : List (String × String))
  | logError (msg : String)
deriving DecidableEq

/-- Embedding of `Handler.process_autogen`.  `payload['inputs']` is the
`inputs` dict; `action = inputs.get('action')` raises `AttributeError` on
`.lower()` when absent, modelled as the `.error` case. -/
def process_autogen (obj : AutogenObject) (inputs : List (String × String)) :
    Except String (List Frame × List AutogenEvent) :=
  match lookupA "action" inputs with
  | none => .error "AttributeError"
  | some a =>
    if pyLower a = "stop" then
      if obj.hasStop then .ok ([], [.stopCalled])
      else .ok ([], [.logError ("act=auto_gen act=" ++ a)])
    else if pyLower a = "continue" then
      if obj.hasInput then .ok ([({ type_ := "start" } : Frame)], [.inputCalled inputs])
      else .ok ([], [.logError ("act=auto_gen act=" ++ a)])
    else .ok ([], [])

/-! ## Derived definitions and concrete scenario inputs -/

/-- The `RecallChunk` built for one document by `process_source_document`. -/
def mkChunk (metaDumps : List (String × String) → String) (kw : String)
    (chatId : String) (mid : Option Nat) (doc : Document) : RecallChunk :=
  { chat_id := chatId, keywords := kw, chunk := doc.page_content,
    file_id := lookupA "file_id" doc.metadata, meta_data := metaDumps doc.metadata,
    message_id := mid }

/-- Scenario A of the spec: `{inputs: {question: "hi"}, is_begin: true}` with
the computation returning `("hello", "", [])`. -/
def scenarioA : TurnInput :=
  { clientId := "client1", chatId := "chat1",
    payload := { inputs := [("question", "hi")], hasIsBegin := true, isBeginVal := true },
    graphOutcome := .ok "hello" (.strS "") [] }

/-- A one-document list whose document carries a non-empty bounding box. -/
def c1Docs : List Document :=
  [{ page_content := "p1", metadata := [("bbox", "b1"), ("file_id", "f1")] }]

/-- A turn with a non-empty chat id whose computation succeeds and returns
`c1Docs` — the situation in which the claim predicts an answer end frame
with `source = true`. -/
def c1Input : TurnInput :=
  { clientId := "client1", chatId := "chat1",
    payload := { inputs := [("question", "hi")], hasIsBegin := true, isBeginVal := true },
    graphOutcome := .ok "ans" (.strS "") c1Docs }

/-- A turn with a non-empty chat id whose computation succeeds. -/
def c2Input : TurnInput :=
  { clientId := "client1", chatId := "chat1",
    payload := { inputs := [("question", "hi2")], hasIsBegin := true, isBeginVal := true },
    graphOutcome := .ok "r2" (.strS "a step") [] }

/-- Scenario B of the spec with an empty chat id: the computation raises
`ValueError("bad model")` in an embedded/preview context. -/
def c3Input : TurnInput :=
  { clientId := "client1", chatId := "",
    payload := { inputs := [("question", "hi")], hasIsBegin := true, isBeginVal := true },
    graphOutcome := .err "bad model" }

/-- A file-ingestion run whose graph yields one generated question and whose
computation succeeds on it. -/
def c4Env : FileEnv :=
  { clientId := "client1", chatId := "chat1",
    build := .withInput ["q1"] "question" "node7",
    compute := fun _ => .ok "ans1" (.strS "") [] }

/-- A two-line log whose second line embeds a serialized source-documents
fragment followed by a Python dict literal, so that `eval` on the text
after the colon succeeds and yields `result = "R42"`. -/
def c6line : String :=
  "step one\nfinal source_documents:\x7b\"result\": \"R42\"\x7d"

/-- The evaluator outcome at `c6line`: `eval` of the dict literal after the
colon succeeds with a one-entry dict. -/
def c6pd : String → Except String (List (String × String)) :=
  fun _ => .ok [("result", "R42")]

/-- A two-document list, both documents carrying bounding boxes. -/
def c7docs : List Document :=
  [{ page_content := "passage one", metadata := [("bbox", "b1"), ("file_id", "f1")] },
   { page_content := "passage two", metadata := [("bbox", "b2"), ("file_id", "f2")] }]

/-- A concrete stand-in for `json.dumps` on document metadata. -/
def c7dumps : List (String × String) → String := fun _ => "META"

/-- A file-ingestion run whose single question makes the computation raise. -/
def c10Env : FileEnv :=
  { clientId := "client1", chatId := "chat1",
    build := .withInput ["q1"] "question" "node7",
    compute := fun _ => .err "boom" }

/-- A file-ingestion run with two questions: the first question's
computation raises, the second succeeds. -/
def c10MixedEnv : FileEnv :=
  { clientId := "client1", chatId := "chat1",
    build := .withInput ["q1", "q2"] "question" "node7",
    compute := fun q => if q = "q1" then .err "boom" else .ok "fine" (.strS "") [] }

/-! ## Helper lemmas -/

theorem foldl_bbox (docs : List Document) (b : Bool) :
    docs.foldl (fun s doc => if bboxMissingOrEmpty doc then false else s) b
      = (b && docs.all (fun d => !bboxMissingOrEmpty d)) := by
  induction docs generalizing b with
  | nil => simp
  | cons d rest ih =>
    simp only [List.foldl_cons, List.all_cons, ih]
    cases h : bboxMissingOrEmpty d <;> simp [h]

theorem decideSource_eq_true_iff (docs : List Document) (chatId : String) :
    decideSource docs chatId = true ↔
      (docs ≠ [] ∧ chatId ≠ "" ∧ ∀ d ∈ docs, bboxMissingOrEmpty d = false) := by
  unfold decideSource
  by_cases hc : docs ≠ [] ∧ chatId ≠ ""
  · rw [if_pos hc, if_pos rfl, foldl_bbox]
    simp only [Bool.true_and, List.all_eq_true, Bool.not_eq_true']
    constructor
    · intro h
      exact ⟨hc.1, hc.2, h⟩
    · intro h
      exact h.2.2
  · rw [if_neg hc, if_neg Bool.false_ne_true]
    constructor
    · intro h
      cases h
    · intro h
      exact absurd ⟨h.1, h.2.1⟩ hc

theorem bbox_present_of_not_missing (d : Document)
    (h : bboxMissingOrEmpty d = false) : hasKey "bbox" d.metadata = true := by
  unfold bboxMissingOrEmpty lookupA at h
  unfold hasKey
  cases hl : d.metadata.lookup "bbox" with
  | none => rw [hl] at h; simp at h
  | some v => simp [hl]

theorem filterMap_bbox (f : Document → RecallChunk) (g : Document → Option RecallChunk)
    (hg : ∀ d, hasKey "bbox" d.metadata = true → g d = some (f d)) :
    ∀ docs : List Document, (∀ d ∈ docs, hasKey "bbox" d.metadata = true) →
      docs.filterMap g = docs.map f := by
  intro docs h
  induction docs with
  | nil => rfl
  | cons d rest ih =>
    have hd : hasKey "bbox" d.metadata = true := h d (by simp)
    have hr : ∀ x ∈ rest, hasKey "bbox" x.metadata = true :=
      fun x hx => h x (by simp [hx])
    simp [List.filterMap_cons, hg d hd, ih hr]

theorem buildStepFrames_length (parseDict : String → Except String (List (String × String)))
    (userId : Option Nat) :
    ∀ (lines : List String) (steps : List Frame),
      buildStepFrames parseDict userId lines = .ok steps →
        steps.length = lines.length := by
  intro lines
  induction lines with
  | nil =>
    intro steps h
    simp only [buildStepFrames, Except.ok.injEq] at h
    subst h
    rfl
  | cons line rest ih =>
    intro steps h
    simp only [buildStepFrames] at h
    cases ht : transformLine parseDict line with
    | error e => rw [ht] at h; cases h
    | ok t =>
      rw [ht] at h
      cases hr : buildStepFrames parseDict userId rest with
      | error e => rw [hr] at h; cases h
      | ok fs =>
        rw [hr] at h
        simp only [Except.ok.injEq] at h
        subst h
        simp [ih fs hr]

theorem buildStepFrames_mem (parseDict : String → Except String (List (String × String)))
    (userId : Option Nat) :
    ∀ (lines : List String) (steps : List Frame),
      buildStepFrames parseDict userId lines = .ok steps →
        ∀ f ∈ steps, ∃ line ∈ lines, ∃ t,
          transformLine parseDict line = .ok t ∧
          f = ({ type_ := "end", intermediate_steps := some t,
                 user_id := userId } : Frame) := by
  intro lines
  induction lines with
  | nil =>
    intro steps h f hf
    simp only [buildStepFrames, Except.ok.injEq] at h
    subst h
    cases hf
  | cons line rest ih =>
    intro steps h f hf
    simp only [buildStepFrames] at h
    cases ht : transformLine parseDict line with
    | error e => rw [ht] at h; cases h
    | ok t =>
      rw [ht] at h
      cases hr : buildStepFrames parseDict userId rest with
      | error e => rw [hr] at h; cases h
      | ok fs =>
        rw [hr] at h
        simp only [Except.ok.injEq] at h
        subst h
        rcases List.mem_cons.mp hf with hfe | hfs
        · exact ⟨line, List.mem_cons_self line rest, t, ht, hfe⟩
        · obtain ⟨l2, hl2, t2, ht2, hfe2⟩ := ih fs hr f hfs
          exact ⟨l2, List.mem_cons_of_mem line hl2, t2, ht2, hfe2⟩

theorem file_turn_err (env : FileEnv) (ik tid x e : String)
    (h : env.compute x = .err e) :
    (process_message (fileTurnInput env ik tid x)).raised = none ∧
    (process_message (fileTurnInput env ik tid x)).result = none := by
  constructor <;> simp [process_message, fileTurnInput, h]

theorem questionLoop_raised_none (env : FileEnv) (ik tid : String) :
    ∀ qs : List String, (∀ x ∈ qs, x ≠ "" → ∃ e, env.compute x = .err e) →
      (questionLoop env ik tid qs).raised = none := by
  intro qs
  induction qs with
  | nil =>
    intro _
    rfl
  | cons x rest ih =>
    intro hall
    have hallr : ∀ y ∈ rest, y ≠ "" → ∃ e, env.compute y = .err e :=
      fun y hy => hall y (List.mem_cons_of_mem x hy)
    by_cases hx : x = ""
    · rw [questionLoop, if_pos hx]
      exact ih hallr
    · obtain ⟨e, he⟩ := hall x (List.mem_cons_self x rest) hx
      have hsub := (file_turn_err env ik tid x e he).1
      rw [questionLoop, if_neg hx]
      simp only [hsub]
      exact ih hallr

theorem questionLoop_report_mem (env : FileEnv) (ik tid q : String) (hq : q ≠ "") :
    ∀ qs : List String, (∀ x ∈ qs, x ≠ "" → ∃ e, env.compute x = .err e) → q ∈ qs →
      ∃ pre post, (questionLoop env ik tid qs).report
        = pre ++ reportEntry q
            (pyStr (process_message (fileTurnInput env ik tid q)).result) ++ post := by
  intro qs
  induction qs with
  | nil =>
    intro _ h
    cases h
  | cons x rest ih =>
    intro hall hmem
    have hallr : ∀ y ∈ rest, y ≠ "" → ∃ e, env.compute y = .err e :=
      fun y hy => hall y (List.mem_cons_of_mem x hy)
    by_cases hx : x = ""
    · have hqr : q ∈ rest := by
        rcases List.mem_cons.mp hmem with h | h
        · exact absurd (h.trans hx) hq
        · exact h
      obtain ⟨pre, post, hpp⟩ := ih hallr hqr
      refine ⟨pre, post, ?_⟩
      rw [questionLoop, if_pos hx]
      exact hpp
    · rcases List.mem_cons.mp hmem with hqx | hqr
      · subst hqx
        obtain ⟨e, he⟩ := hall q (List.mem_cons_self q rest) hq
        have hsub := (file_turn_err env ik tid q e he).1
        refine ⟨"", (questionLoop env ik tid rest).report, ?_⟩
        rw [questionLoop, if_neg hq]
        simp only [hsub]
        simp [String.append_assoc]
      · obtain ⟨e, he⟩ := hall x (List.mem_cons_self x rest) hx
        have hsub := (file_turn_err env ik tid x e he).1
        obtain ⟨pre, post, hpp⟩ := ih hallr hqr
        refine ⟨reportEntry x
          (pyStr (process_message (fileTurnInput env ik tid x)).result) ++ pre, post, ?_⟩
        rw [questionLoop, if_neg hx]
        simp only [hsub, hpp]
        simp [String.append_assoc]

/-! ## Claim C1 -/

/-- Claim C1 is the intent of handlers.py lines 91-96, but those lines are
unreachable: on a turn whose computation succeeds — here with a non-empty
chat id and a document list whose every member carries a non-empty bounding
box, so the claim predicts an answer end frame with `source = true` — the
call at line 90 raises `TypeError` (four arguments for the five-parameter
`intermediate_logs`), outside the try/except.  The turn aborts after
`begin, start`; no answer end frame, and hence no `source` flag, is ever
emitted for any turn. -/
theorem claim_C1 :
    c1Input.chatId ≠ "" ∧
    c1Input.graphOutcome = .ok "ans" (.strS "") c1Docs ∧
    (∀ d ∈ c1Docs, bboxMissingOrEmpty d = false) ∧
    (process_message c1Input).frames =
      [({ type_ := "begin" } : Frame), ({ type_ := "start" } : Frame)] ∧
    (∀ f ∈ (process_message c1Input).frames, f.source = none) ∧
    (process_message c1Input).raised = some typeErrorIntermediateLogs := by
  decide

/-! ## Claim C2 -/

/-- Claim C2 is the intent of the frame protocol, but on the success exit
path the code violates it: after `begin, start` the call at line 90 raises
`TypeError` (four arguments for the five-parameter `intermediate_logs`),
outside the try/except, so the last frame sent for a successful turn is the
`start` frame, not a `close` frame. -/
theorem claim_C2 :
    c2Input.graphOutcome = .ok "r2" (.strS "a step") [] ∧
    (process_message c2Input).frames.map Frame.type_ = ["begin", "start"] ∧
    ((process_message c2Input).frames.getLast?).map Frame.type_ = some "start" ∧
    ((process_message c2Input).frames.getLast?).map Frame.type_ ≠ some "close" ∧
    (process_message c2Input).raised = some typeErrorIntermediateLogs := by
  decide

/-! ## Claim C3 -/

/-- Claim C3: when the computation raises, the processor emits an end frame
whose `intermediate_steps` holds the error wrapped with the localized
prefix, then — when the chat id is empty — a duplicate start frame and an
end frame with the error text moved into `message` and `intermediate_steps`
cleared, then a close frame; no answer-category frame is emitted, no step is
persisted, no `RecallChunk` is created, and the handler returns `None`. -/
theorem claim_C3 (inp : TurnInput) (e : String) (herr : inp.graphOutcome = .err e) :
    (process_message inp).frames =
      (if payloadIsBegin inp.payload = true then
        [({ type_ := "begin", user_id := inp.userId } : Frame)] else [])
      ++ [({ type_ := "start", user_id := inp.userId } : Frame),
          ({ type_ := "end", intermediate_steps := some ("分析出错，" ++ e),
             user_id := inp.userId } : Frame)]
      ++ (if inp.chatId = "" then
            [({ type_ := "start", user_id := inp.userId } : Frame),
             ({ type_ := "end", message := some ("分析出错，" ++ e),
                user_id := inp.userId } : Frame)]
          else [])
      ++ [({ type_ := "close", user_id := inp.userId } : Frame)] ∧
    (∀ f ∈ (process_message inp).frames, f.category ≠ some "answer") ∧
    (∀ h ∈ (process_message inp).history, ∀ g, h ≠ HistoryEntry.step g) ∧
    (process_message inp).recallChunks = [] ∧
    (process_message inp).result = none := by
  have hfr : (process_message inp).frames =
      (if payloadIsBegin inp.payload = true then
        [({ type_ := "begin", user_id := inp.userId } : Frame)] else [])
      ++ [({ type_ := "start", user_id := inp.userId } : Frame),
          ({ type_ := "end", intermediate_steps := some ("分析出错，" ++ e),
             user_id := inp.userId } : Frame)]
      ++ (if inp.chatId = "" then
            [({ type_ := "start", user_id := inp.userId } : Frame),
             ({ type_ := "end", message := some ("分析出错，" ++ e),
                user_id := inp.userId } : Frame)]
          else [])
      ++ [({ type_ := "close", user_id := inp.userId } : Frame)] := by
    simp only [process_message, herr]
    by_cases hb : payloadIsBegin inp.payload = true <;>
      by_cases hc : inp.chatId = "" <;>
        simp [hb, hc]
  refine ⟨hfr, ?_, ?_, ?_, ?_⟩
  · intro f hf
    rw [hfr] at hf
    by_cases hb : payloadIsBegin inp.payload = true <;>
      by_cases hc : inp.chatId = "" <;>
        simp [hb, hc] at hf <;>
          casesm* _ ∨ _ <;> simp_all
  · intro h hh g
    have hhist : (process_message inp).history =
        (if payloadIsBegin inp.payload = true then
          [HistoryEntry.question
            (match inp.artifacts with
             | none =>
               if hasKey "id" inp.payload.inputs then removeKey "id" inp.payload.inputs
               else inp.payload.inputs
             | some arts =>
               applyArtifacts arts
                 (if hasKey "id" inp.payload.inputs then removeKey "id" inp.payload.inputs
                  else inp.payload.inputs))
            (!payloadIsBegin inp.payload) inp.userId]
         else []) := by
      simp only [process_message, herr]
    rw [hhist] at hh
    by_cases hb : payloadIsBegin inp.payload = true <;> simp [hb] at hh
    rw [hh]
    simp
  · simp only [process_message, herr]
  · simp only [process_message, herr]

/-- Witness for C3: a concrete failing turn (`ValueError("bad model")`, empty
chat id): the wrapped error frame, the duplicated start/end pair, the
terminal close, and the absence of side effects, all evaluated. -/
theorem claim_C3_witness :
    c3Input.graphOutcome = .err "bad model" ∧
    (process_message c3Input).frames =
      [({ type_ := "begin" } : Frame), ({ type_ := "start" } : Frame),
       ({ type_ := "end", intermediate_steps := some "分析出错，bad model" } : Frame),
       ({ type_ := "start" } : Frame),
       ({ type_ := "end", message := some "分析出错，bad model" } : Frame),
       ({ type_ := "close" } : Frame)] ∧
    (process_message c3Input).recallChunks = [] ∧
    (process_message c3Input).result = none := by
  have h := claim_C3 c3Input "bad model" rfl
  exact ⟨rfl, by rw [h.1]; decide, h.2.2.2.1, h.2.2.2.2⟩

/-! ## Claim C4 -/

/-- Claim C4 describes the intended nested invocation of `process_message`
by `process_file`, and the code breaks it twice.  First, the constructed
payload carries no `is_begin` key, so the nested turn runs with
`is_begin = true` (it re-saves the question and emits an extra begin frame)
— contradicting the claim and the source's own comment at line 53 that
file-triggered turns arrive with the question already saved.  Second, the
nested successful turn raises `TypeError` at line 90, so the driver aborts
after the nested `begin, start` and no report frame is ever emitted: at
this input the frame sequence ends `..., begin, start` and `report` is
`none`. -/
theorem claim_C4 :
    (process_file c4Env).invocations = [fileTurnPayload "question" "node7" "q1"] ∧
    (fileTurnPayload "question" "node7" "q1").hasIsBegin = false ∧
    payloadIsBegin (fileTurnPayload "question" "node7" "q1") = true ∧
    (process_file c4Env).frames.map Frame.type_ =
      ["begin", "start", "end", "start", "end", "begin", "start"] ∧
    (process_file c4Env).report = none ∧
    (process_file c4Env).raised = some typeErrorIntermediateLogs := by
  decide

/-! ## Claim C5 -/

/-- Claim C5 describes Scenario A's intended frame sequence, but the code
never produces it: after `begin, start` the call at line 90 raises
`TypeError` (four arguments for the five-parameter `intermediate_logs`),
so no answer-category frames, no end frame with `message = "hello"`, and no
close frame are emitted; no `RecallChunk` is created. -/
theorem claim_C5 :
    scenarioA.graphOutcome = .ok "hello" (.strS "") [] ∧
    payloadIsBegin scenarioA.payload = true ∧
    (process_message scenarioA).frames =
      [({ type_ := "begin" } : Frame), ({ type_ := "start" } : Frame)] ∧
    (process_message scenarioA).raised = some typeErrorIntermediateLogs ∧
    (process_message scenarioA).recallChunks = [] := by
  decide

/-! ## Claim C6 -/

/-- Claim C6 as stated is false on the code: at a concrete two-line log
whose second line carries a source-documents fragment with an evaluable
dict literal after the colon, the per-line sub-frames built by
`intermediate_logs` are persisted to chat history but never sent to the
session — only the single bare `end` frame is sent, so no sub-frame is
persisted "after being sent". -/
theorem claim_C6_counterexample :
    intermediate_logs c6pd "chat1" none (.strS c6line)
      = .ok { sent := [({ type_ := "end" } : Frame)],
              persisted :=
                [({ type_ := "end", intermediate_steps := some "step one" } : Frame),
                 ({ type_ := "end", intermediate_steps := some "Answer: R42" } : Frame)] } ∧
    ({ type_ := "end", intermediate_steps := some "step one" } : Frame) ∉
      [({ type_ := "end" } : Frame)] ∧
    ({ type_ := "end", intermediate_steps := some "Answer: R42" } : Frame) ∉
      [({ type_ := "end" } : Frame)] :=
  ⟨rfl, by decide, by decide⟩

/-- Claim C6 (amended): with a non-blank string log and a present chat id,
the log is split on line breaks and each line is processed by
`transformLine` (a line containing a serialized source-documents fragment
becomes `Answer: <result>` when its evaluation succeeds and yields a
`result` field).  When every line processes without an exception, one frame
is built per resulting line and every constructed sub-frame is persisted as
a ChatMessage — but the sub-frames are never sent: only a single bare `end`
frame is sent.  When some line raises (`IndexError` on a colon-free
fragment line, or an `eval` failure), the whole normalization raises and
nothing is sent or persisted. -/
theorem claim_C6 (parseDict : String → Except String (List (String × String)))
    (chatId : String) (userId : Option Nat) (s : String)
    (hch : chatId ≠ "") (hs : pyStrip s ≠ "") :
    (∀ steps : List Frame,
      buildStepFrames parseDict userId (pySplitChar s '\n') = .ok steps →
        intermediate_logs parseDict chatId userId (.strS s)
            = .ok { sent := [({ type_ := "end", user_id := userId } : Frame)],
                    persisted := steps } ∧
        steps.length = (pySplitChar s '\n').length ∧
        (∀ f ∈ steps, ∃ line ∈ pySplitChar s '\n', ∃ t,
            transformLine parseDict line = .ok t ∧
            f = ({ type_ := "end", intermediate_steps := some t,
                   user_id := userId } : Frame)) ∧
        (∀ f ∈ steps,
          f ∉ [({ type_ := "end", user_id := userId } : Frame)])) ∧
    (∀ e, buildStepFrames parseDict userId (pySplitChar s '\n') = .error e →
      intermediate_logs parseDict chatId userId (.strS s) = .error e) := by
  have hs0 : s ≠ "" := by
    intro h
    rw [h] at hs
    exact hs rfl
  have hfalsy : stepsFalsy (.strS s) = false := by
    simp [stepsFalsy, hs0]
  constructor
  · intro steps hok
    refine ⟨?_, buildStepFrames_length parseDict userId _ steps hok, ?_, ?_⟩
    · simp [intermediate_logs, hfalsy, hch, hs, hok]
    · exact buildStepFrames_mem parseDict userId _ steps hok
    · intro f hf
      obtain ⟨line, -, t, -, hfe⟩ :=
        buildStepFrames_mem parseDict userId _ steps hok f hf
      subst hfe
      simp
  · intro e herr
    simp [intermediate_logs, hfalsy, hch, hs, herr]

/-- Witness for C6: the amended statement evaluated at `c6line`, whose
second line evaluates successfully to a dict with `result = "R42"`. -/
theorem claim_C6_witness :
    (("chat1" : String) ≠ "" ∧ pyStrip c6line ≠ "" ∧
     buildStepFrames c6pd none (pySplitChar c6line '\n')
        = .ok [({ type_ := "end", intermediate_steps := some "step one" } : Frame),
               ({ type_ := "end", intermediate_steps := some "Answer: R42" } : Frame)]) ∧
    intermediate_logs c6pd "chat1" none (.strS c6line)
        = .ok { sent := [({ type_ := "end" } : Frame)],
                persisted :=
                  [({ type_ := "end", intermediate_steps := some "step one" } : Frame),
                   ({ type_ := "end", intermediate_steps := some "Answer: R42" } : Frame)] } :=
  ⟨⟨by decide, by decide, rfl⟩,
   ((claim_C6 c6pd "chat1" none c6line (by decide) (by decide)).1
     [({ type_ := "end", intermediate_steps := some "step one" } : Frame),
      ({ type_ := "end", intermediate_steps := some "Answer: R42" } : Frame)]
     rfl).1⟩

/-! ## Claim C7 -/

/-- Claim C7: after a turn with `source = true`, the recorder persists
exactly one `RecallChunk` per SourceDocument carrying a bounding box (under
`source = true` that is every document), each holding the passage content,
serialized metadata, serialized keywords, file id, chat id and message id;
and on an empty document list the recorder is a no-op. -/
theorem claim_C7 (metaDumps : List (String × String) → String) (kw : String)
    (docs : List Document) (chatId : String) (mid : Option Nat)
    (hsrc : decideSource docs chatId = true) :
    process_source_document metaDumps kw docs chatId mid
        = docs.map (mkChunk metaDumps kw chatId mid) ∧
    (process_source_document metaDumps kw docs chatId mid).length
        = (docs.filter (fun d => hasKey "bbox" d.metadata)).length ∧
    process_source_document metaDumps kw [] chatId mid = [] := by
  obtain ⟨hne, -, hall⟩ := (decideSource_eq_true_iff docs chatId).mp hsrc
  have hkeys : ∀ d ∈ docs, hasKey "bbox" d.metadata = true :=
    fun d hd => bbox_present_of_not_missing d (hall d hd)
  have hmap : process_source_document metaDumps kw docs chatId mid
      = docs.map (mkChunk metaDumps kw chatId mid) := by
    unfold process_source_document
    rw [if_neg hne]
    exact filterMap_bbox (mkChunk metaDumps kw chatId mid)
      (fun doc =>
        if hasKey "bbox" doc.metadata then
          some { chat_id := chatId, keywords := kw, chunk := doc.page_content,
                 file_id := lookupA "file_id" doc.metadata,
                 meta_data := metaDumps doc.metadata, message_id := mid }
        else none)
      (fun d hd => by simp [hd, mkChunk]) docs hkeys
  refine ⟨hmap, ?_, rfl⟩
  rw [hmap, List.length_map, List.filter_length_eq_length.mpr hkeys]

/-- Witness for C7: the recorder evaluated on a concrete traceable turn with
two documents, both carrying bounding boxes. -/
theorem claim_C7_witness :
    decideSource c7docs "chat1" = true ∧
    process_source_document c7dumps "KW" c7docs "chat1" (some 5)
        = c7docs.map (mkChunk c7dumps "KW" "chat1" (some 5)) ∧
    process_source_document c7dumps "KW" [] "chat1" (some 5) = [] := by
  have h := claim_C7 c7dumps "KW" c7docs "chat1" (some 5) (by decide)
  exact ⟨by decide, h.1, h.2.2⟩

/-! ## Claim C8 -/

/-- Claim C8: the dispatcher's fixed set of actions is
`{default, autogen, auto_file}`; an unknown action raises an
"unknown action" error and invokes no handler; a known action invokes the
corresponding handler exactly once, between the acquisition and the release
of the scoped session lock for `(clientId, chatId)`. -/
theorem claim_C8 (clientId chatId action : String) :
    handler_dict.map Prod.fst = ["default", "autogen", "auto_file"] ∧
    (handler_dict.lookup action = none →
      (dispatch_task clientId chatId action).2 = some ("unknown action " ++ action) ∧
      ∀ h, DispatchEvent.invokeHandler h ∉ (dispatch_task clientId chatId action).1) ∧
    (∀ hname, handler_dict.lookup action = some hname →
      (dispatch_task clientId chatId action).1 =
        [DispatchEvent.acquireScope clientId chatId, DispatchEvent.invokeHandler hname,
         DispatchEvent.releaseScope clientId chatId] ∧
      (dispatch_task clientId chatId action).2 = none) := by
  refine ⟨rfl, ?_, ?_⟩
  · intro hnone
    constructor
    · simp [dispatch_task, hnone]
    · intro h
      simp [dispatch_task, hnone]
  · intro hname hsome
    constructor
    · simp [dispatch_task, hsome]
    · simp [dispatch_task, hsome]

/-- Witness for C8: the unknown action `"bogus"` fails without invoking a
handler; the known action `"default"` invokes `process_message` under the
session scope. -/
theorem claim_C8_witness :
    (dispatch_task "c" "k" "bogus").2 = some ("unknown action " ++ "bogus") ∧
    (∀ h, DispatchEvent.invokeHandler h ∉ (dispatch_task "c" "k" "bogus").1) ∧
    (dispatch_task "c" "k" "default").1 =
      [DispatchEvent.acquireScope "c" "k", DispatchEvent.invokeHandler "process_message",
       DispatchEvent.releaseScope "c" "k"] :=
  ⟨((claim_C8 "c" "k" "bogus").2.1 (by decide)).1,
   ((claim_C8 "c" "k" "bogus").2.1 (by decide)).2,
   ((claim_C8 "c" "k" "default").2.2 "process_message" (by decide)).1⟩

/-! ## Claim C9 -/

/-- Claim C9: on a `continue` signal, when the cached object lacks the
input-injection capability the controller sends no frame, raises nothing,
and only logs; when the object has the capability, the payload's inputs are
forwarded to the object and exactly one new `start` frame is emitted. -/
theorem claim_C9 (obj : AutogenObject) (inputs : List (String × String)) (a : String)
    (hact : lookupA "action" inputs = some a) (hcont : pyLower a = "continue") :
    (obj.hasInput = false →
      process_autogen obj inputs
        = .ok ([], [.logError ("act=auto_gen act=" ++ a)])) ∧
    (obj.hasInput = true →
      process_autogen obj inputs
        = .ok ([({ type_ := "start" } : Frame)], [.inputCalled inputs])) := by
  constructor
  · intro hni
    simp [process_autogen, hact, hcont, hni]
  · intro hi
    simp [process_autogen, hact, hcont, hi]

/-- Witness for C9: the controller evaluated on a `continue` signal for an
object without the input capability, and for one with it. -/
theorem claim_C9_witness :
    (lookupA "action" [("action", "continue")] = some "continue" ∧
     pyLower "continue" = "continue") ∧
    process_autogen ⟨false, false⟩ [("action", "continue")]
        = .ok ([], [.logError ("act=auto_gen act=" ++ "continue")]) ∧
    process_autogen ⟨true, true⟩ [("action", "continue")]
        = .ok ([({ type_ := "start" } : Frame)],
               [.inputCalled [("action", "continue")]]) :=
  ⟨⟨rfl, by decide⟩,
   (claim_C9 ⟨false, false⟩ [("action", "continue")] "continue" rfl (by decide)).1 rfl,
   (claim_C9 ⟨true, true⟩ [("action", "continue")] "continue" rfl (by decide)).2 rfl⟩

/-! ## Claim C10 -/

/-- Claim C10 as stated is false on the code: in a run where one question's
computation raises and a later question's computation succeeds, the failing
turn is driven by the driver and returns `None`, yet the report never gains
an entry for it — the successful nested turn raises `TypeError` at line 90
and aborts `process_file` before any report frame. -/
theorem claim_C10_counterexample :
    c10MixedEnv.compute "q1" = .err "boom" ∧
    ("q1" : String) ≠ "" ∧
    (process_message (fileTurnInput c10MixedEnv "question" "node7" "q1")).result = none ∧
    (process_file c10MixedEnv).report = none ∧
    (process_file c10MixedEnv).raised = some typeErrorIntermediateLogs := by
  decide

/-- Claim C10 (amended): when the computation raises inside a file-driven
turn, the nested `process_message` returns `None`; and in the runs that
reach the report frame at all — those where every processed question's
computation raises, since a successful one raises `TypeError` at line 90
and aborts the driver — the aggregated report gains an entry for the
failing question whose answer slot holds the text rendering of the absent
value (`"None"`), rather than omitting the question or the error text. -/
theorem claim_C10 (env : FileEnv) (qs : List String) (ik tid q e : String)
    (hbuild : env.build = .withInput qs ik tid) (hq : q ≠ "") (hmem : q ∈ qs)
    (herr : env.compute q = .err e)
    (hall : ∀ x ∈ qs, x ≠ "" → ∃ e2, env.compute x = .err e2) :
    (process_message (fileTurnInput env ik tid q)).result = none ∧
    (process_file env).raised = none ∧
    (∃ pre post, (process_file env).report
        = some (pre ++ reportEntry q "None" ++ post)) := by
  have hres := (file_turn_err env ik tid q e herr).2
  have hln := questionLoop_raised_none env ik tid qs hall
  obtain ⟨pre, post, hpp⟩ := questionLoop_report_mem env ik tid q hq qs hall hmem
  rw [hres] at hpp
  refine ⟨hres, ?_, pre, post, ?_⟩
  · simp only [process_file, hbuild, hln]
  · simp only [process_file, hbuild, hln]
    rw [hpp]
    rfl

/-- Witness for C10: a concrete file-ingestion run whose single question
makes the computation raise `"boom"`; the driver survives to the report
frame and the report entry renders `None`. -/
theorem claim_C10_witness :
    (c10Env.build = .withInput ["q1"] "question" "node7" ∧ ("q1" : String) ≠ "" ∧
     ("q1" : String) ∈ ["q1"] ∧ c10Env.compute "q1" = .err "boom" ∧
     (∀ x ∈ (["q1"] : List String), x ≠ "" → ∃ e2, c10Env.compute x = .err e2)) ∧
    (process_message (fileTurnInput c10Env "question" "node7" "q1")).result = none ∧
    (process_file c10Env).raised = none ∧
    (∃ pre post, (process_file c10Env).report
        = some (pre ++ reportEntry "q1" "None" ++ post)) :=
  ⟨⟨rfl, by decide, by decide, rfl, fun x _ _ => ⟨"boom", rfl⟩⟩,
   claim_C10 c10Env ["q1"] "question" "node7" "q1" "boom" rfl (by decide) (by decide) rfl
     (fun x _ _ => ⟨"boom", rfl⟩)⟩
